import Mathlib

/-!
Verification development for the UpsetIQ repository.

The TypeScript frontend and the SQL schema are shallowly embedded into Lean:
structures mirror the TypeScript interfaces and SQL table rows field by field,
JavaScript numbers are modelled as rationals, JavaScript Date objects as an
explicit record of the observations the code makes of them (epoch millis and
calendar components), and fallible code returns Option or Except.  Functions
absent from the repository sources (the Python backend pipeline) are modelled
from the specification and marked as such in their doc comments.
-/

namespace UpsetIQ

/-- Sports supported by the app, from the frontend type Sport in
src/frontend/src/types/index.ts. -/
inductive Sport
  | NBA
  | NFL
  | MLB
  | NHL
  | Soccer
  | CFB
deriving DecidableEq, Repr

/-- Game status union type from the frontend Game interface. -/
inductive GameStatus
  | upcoming
  | live
  | completed
deriving DecidableEq, Repr

/-- Model of a JavaScript Date as observed by this code base: getTime gives
epoch milliseconds, getDate, getMonth and getFullYear give the calendar
components.  The frontend only ever constructs dates from strings and reads
these four observations, so this record is a faithful interface model. -/
structure JsDate where
  time : Int
  day : Nat
  month : Nat
  year : Nat
deriving DecidableEq, Repr

/-- Prediction interface from src/frontend/src/types/index.ts.  Scores are
JavaScript numbers, embedded as rationals. -/
structure Prediction where
  id : String
  game_id : String
  upset_probability : ℚ
  model_version : String
  confidence_band : ℚ
  created_at : String
deriving DecidableEq, Repr

/-- MarketSignal interface from src/frontend/src/types/index.ts. -/
structure MarketSignal where
  id : String
  game_id : String
  public_bet_percentage : ℚ
  line_movement : ℚ
  sentiment_score : ℚ
  created_at : String
deriving DecidableEq, Repr

/-- Driver labels pushed by mockData.ts and gamesApi.ts.  The TypeScript code
stores each driver as a record with a formatted label string; the embedding
replaces each distinct label template by a constructor carrying the numeric
payload that the template interpolates, so the selection logic is preserved
exactly while string formatting (a presentation concern) is elided. -/
inductive DriverLabel
  | spreadMoved (movement : ℚ)
  | publicGe70OnFavorite
  | primeTimeGame
  | lineMovementAgainstFavorite
  | historicalAnomalyDetected
  | highPublicBiasDetected
  | modelConfidenceHigh
deriving DecidableEq, Repr

/-- Game interface from src/frontend/src/types/index.ts.  start_time is kept
as the raw string the API delivers; consumers parse it with a Date
constructor, modelled below by an explicit parse parameter. -/
structure Game where
  id : String
  sport : Sport
  team_favorite : String
  team_underdog : String
  start_time : String
  odds_open : ℚ
  odds_current : ℚ
  status : Option GameStatus
  isPrimeTime : Option Bool
  spreadOpen : Option ℚ
  spreadCurrent : Option ℚ
  totalOpen : Option ℚ
  totalCurrent : Option ℚ
deriving DecidableEq, Repr

/-- GameWithPrediction interface: a Game joined with its prediction, market
signal and optional driver list. -/
structure GameWithPrediction extends Game where
  prediction : Prediction
  marketSignal : MarketSignal
  drivers : Option (List DriverLabel)
deriving DecidableEq, Repr

/-! ## Claim C1: prediction score bounds

The predictions table (part_000, lines 428-442) carries the column constraint
CHECK (upset_probability >= 0 AND upset_probability <= 100) together with
UNIQUE(game_id, model_version); an INSERT violating either is rejected by the
database.  The scorer that produces rows is not part of src/ and is modelled
from the specification. -/

/-- Row of the predictions SQL table (part_000, lines 428-442). -/
structure PredictionRow where
  game_id : String
  upset_probability : ℚ
  confidence_band : Option ℚ
  model_version : String
deriving DecidableEq, Repr

/-- The CHECK constraint of the predictions table: upset_probability must lie
in the closed interval from 0 to 100. -/
def predictionsCheck (r : PredictionRow) : Bool :=
  decide (0 ≤ r.upset_probability) && decide (r.upset_probability ≤ 100)

/-- INSERT into the predictions table: the database accepts the row only when
the CHECK constraint holds and UNIQUE(game_id, model_version) is not
violated; otherwise the statement fails and the table is unchanged. -/
def insertPrediction (tbl : List PredictionRow) (r : PredictionRow) :
    Option (List PredictionRow) :=
  if predictionsCheck r &&
      tbl.all (fun q => !(q.game_id == r.game_id && q.model_version == r.model_version)) then
    some (tbl ++ [r])
  else
    none

/-- Every row of a predictions table satisfies the score bounds. -/
def predictionsTableBounded (tbl : List PredictionRow) : Prop :=
  ∀ r ∈ tbl, 0 ≤ r.upset_probability ∧ r.upset_probability ≤ 100

/-- Modelled from the spec: the Model Scorer (backend, absent from src/)
combines the available signal-group deltas, weighted by configuration, around
the 50 baseline and clamps the final score to the interval from 0 to 100
(spec sections 4.3 and 8).  Missing groups are omitted from the sum. -/
structure ScorerFeatures where
  marketDelta : Option ℚ
  injuryDelta : Option ℚ
  sentimentDelta : Option ℚ
  formDelta : Option ℚ
deriving DecidableEq, Repr

/-- Modelled from the spec: signal-group weights are configuration, not
hardcoded (spec section 4.3). -/
structure ScorerWeights where
  market : ℚ
  injury : ℚ
  sentiment : ℚ
  form : ℚ
deriving DecidableEq, Repr

/-- Modelled from the spec: contribution of one optional signal group; an
absent group contributes nothing rather than a neutral value. -/
def groupContribution (w : ℚ) : Option ℚ → ℚ
  | some d => w * d
  | none => 0

/-- Modelled from the spec: the scorer clamps the combined score into the
interval from 0 to 100 and never emits a value outside it. -/
def scoreUps (w : ScorerWeights) (f : ScorerFeatures) : ℚ :=
  let raw := 50 + groupContribution w.market f.marketDelta
      + groupContribution w.injury f.injuryDelta
      + groupContribution w.sentiment f.sentimentDelta
      + groupContribution w.form f.formDelta
  max 0 (min 100 raw)

/-- Mock predictions from mockData.ts, lines 200-283.  The created_at values
are wall-clock strings produced at module load, abstracted as the parameter
nowIso. -/
def mockPredictions (nowIso : String) : List Prediction :=
  [ ⟨"1", "1", 67, "v1.0", 12, nowIso⟩,
    ⟨"2", "2", 71, "v1.0", 15, nowIso⟩,
    ⟨"4", "4", 45, "v1.0", 8, nowIso⟩,
    ⟨"3", "3", 62, "v1.0", 10, nowIso⟩,
    ⟨"5", "5", 55, "v1.0", 11, nowIso⟩,
    ⟨"6", "6", 58, "v1.0", 9, nowIso⟩,
    ⟨"7", "7", 65, "v1.0", 13, nowIso⟩,
    ⟨"8", "8", 52, "v1.0", 10, nowIso⟩,
    ⟨"9", "9", 48, "v1.0", 8, nowIso⟩,
    ⟨"10", "10", 70, "v1.0", 14, nowIso⟩ ]

/-- Claim C1: every prediction stored or produced by the system carries an
upset probability score inside the closed interval from 0 to 100: the
predictions table CHECK constraint preserves the bound across inserts, every
mock prediction satisfies it, and the spec-modelled scorer clamps every
output into the interval, for any weight configuration. -/
theorem c1_prediction_scores_bounded :
    (∀ tbl r tbl', predictionsTableBounded tbl → insertPrediction tbl r = some tbl' →
      predictionsTableBounded tbl') ∧
    (∀ nowIso p, p ∈ mockPredictions nowIso →
      0 ≤ p.upset_probability ∧ p.upset_probability ≤ 100) ∧
    (∀ w f, 0 ≤ scoreUps w f ∧ scoreUps w f ≤ 100) := by
  refine ⟨?_, ?_, ?_⟩
  · intro tbl r tbl' hinv hins q hq
    unfold insertPrediction at hins
    split at hins
    case isTrue hc =>
      cases hins
      rcases List.mem_append.mp hq with h | h
      · exact hinv q h
      · rw [List.mem_singleton] at h
        subst h
        have hr := ((Bool.and_eq_true _ _).mp hc).1
        rw [predictionsCheck, Bool.and_eq_true, decide_eq_true_iff, decide_eq_true_iff] at hr
        exact hr
    case isFalse hc => cases hins
  · intro nowIso p hp
    simp only [mockPredictions, List.mem_cons, List.not_mem_nil, or_false] at hp
    rcases hp with h | h | h | h | h | h | h | h | h | h <;> subst h <;>
      exact ⟨by norm_num, by norm_num⟩
  · intro w f
    simp only [scoreUps]
    exact ⟨le_max_left _ _, max_le (by norm_num) (min_le_left _ _)⟩

/-- Witness for C1 at concrete inputs: inserting a row with score 75 into the
empty predictions table keeps the table bounded, and the first mock
prediction has its score 67 inside the bounds. -/
theorem c1_prediction_scores_bounded_witness :
    predictionsTableBounded [⟨"g1", 75, none, "v1.0"⟩] ∧
    (0 ≤ (67 : ℚ) ∧ (67 : ℚ) ≤ 100) :=
  ⟨c1_prediction_scores_bounded.1 [] ⟨"g1", 75, none, "v1.0"⟩ _
      (by intro r hr; cases hr) (by decide),
    c1_prediction_scores_bounded.2.1 "now" ⟨"1", "1", 67, "v1.0", 12, "now"⟩ (by decide)⟩

/-! ## Claim C2: threshold alerts in checkAlerts

checkAlerts (part_011, lines 70-91) walks the alert list once per evaluation.
For each alert it skips alerts whose triggered flag is set, reads the current
score, and schedules a notification when the score is truthy and at or above
the threshold.  It never writes the triggered flag and keeps no state between
calls. -/

/-- Alert interface from src/frontend/src/types/index.ts. -/
structure Alert where
  id : String
  game_id : String
  user_id : String
  threshold : ℚ
  triggered : Bool
  created_at : String
deriving DecidableEq, Repr

namespace Notifs

/-- Firing condition of checkAlerts for one alert: the alert is not marked
triggered, and the current score of its game is present, truthy (nonzero)
and at or above the threshold.  JavaScript source: if (alert.triggered)
continue; if (currentUps and currentUps >= alert.threshold) fire. -/
def firesFor (getGameUps : String → Option ℚ) (alert : Alert) : Bool :=
  !alert.triggered &&
    (match getGameUps alert.game_id with
      | some currentUps => !(currentUps == 0) && decide (alert.threshold ≤ currentUps)
      | none => false)

/-- checkAlerts (part_011, lines 70-91): the alerts for which a notification
is scheduled during one evaluation pass. -/
def checkAlerts (alerts : List Alert) (getGameUps : String → Option ℚ) : List Alert :=
  alerts.filter (firesFor getGameUps)

/-- Number of evaluations at which an alert fires when checkAlerts runs once
per score of the sequence, the alert record unchanged between calls, exactly
as the source leaves it. -/
def countFires (alert : Alert) (scores : List ℚ) : Nat :=
  scores.countP (fun u => firesFor (fun _ => some u) alert)

end Notifs

/-- Counterexample for claim C2: for an untriggered alert with threshold 65
evaluated over the score sequence 70, 70, the previous score is never
strictly below the threshold, so under the claimed upward-crossing semantics
no notification may fire; checkAlerts nevertheless fires at both
evaluations. -/
theorem c2_counterexample_refires_above_threshold :
    Notifs.countFires ⟨"a1", "g1", "current-user", 65, false, "t0"⟩ [70, 70] = 2 ∧
    ¬ ((70 : ℚ) < 65) := by
  constructor
  · decide
  · norm_num

/-- Amended claim C2: checkAlerts is level-triggered, not edge-triggered.  A
notification is scheduled for an alert at an evaluation exactly when its
triggered flag is false and the current score of its game is nonzero and at
or above the threshold; every fired alert comes from the input list with the
flag unset; and since checkAlerts never updates the flag, over a score
sequence the alert fires at every qualifying evaluation, independent of the
previous scores. -/
theorem c2_checkAlerts_level_triggered :
    (∀ getGameUps alerts a, a ∈ Notifs.checkAlerts alerts getGameUps →
      a ∈ alerts ∧ a.triggered = false) ∧
    (∀ (a : Alert) (u : ℚ), a.triggered = false →
      (a ∈ Notifs.checkAlerts [a] (fun _ => some u) ↔ (u ≠ 0 ∧ a.threshold ≤ u))) ∧
    (∀ (a : Alert) (scores : List ℚ), a.triggered = false →
      Notifs.countFires a scores =
        scores.countP (fun u => !(u == 0) && decide (a.threshold ≤ u))) := by
  refine ⟨?_, ?_, ?_⟩
  · intro getGameUps alerts a ha
    rw [Notifs.checkAlerts, List.mem_filter] at ha
    refine ⟨ha.1, ?_⟩
    have := ha.2
    rw [Notifs.firesFor, Bool.and_eq_true, Bool.not_eq_true'] at this
    exact this.1
  · intro a u ha
    rw [Notifs.checkAlerts]
    simp [Notifs.firesFor, ha, List.mem_filter]
  · intro a scores ha
    rw [Notifs.countFires]
    refine List.countP_congr ?_
    intro u _
    rw [Notifs.firesFor, ha]
    simp

/-- Witness for the amended claim C2 at concrete inputs: the untriggered
alert with threshold 65 fires at an evaluation whose current score is 70. -/
theorem c2_checkAlerts_level_triggered_witness :
    (⟨"a1", "g1", "current-user", 65, false, "t0"⟩ : Alert) ∈
      Notifs.checkAlerts [⟨"a1", "g1", "current-user", 65, false, "t0"⟩]
        (fun _ => some 70) :=
  (c2_checkAlerts_level_triggered.2.1 ⟨"a1", "g1", "current-user", 65, false, "t0"⟩ 70
      rfl).mpr ⟨by norm_num, by norm_num⟩

/-! ## Claim C3: alert deduplication

addAlert (src/upsetiq/frontend/src/context/AlertsContext.tsx, lines 16-26)
appends a fresh alert record unconditionally; it performs no lookup for an
existing alert of the same user and game and updates nothing.  The SQL alerts
table (part_000, lines 510-525) is the only place enforcing at-most-one alert
per pair, through UNIQUE(user_id, game_id). -/

namespace AlertsContext

/-- addAlert: appends a new alert for the current user with the given game
and threshold.  The clock reads Date.now() and new Date().toISOString() are
the parameters now and nowIso. -/
def addAlert (alerts : List Alert) (gameId : String) (threshold : ℚ)
    (now : Nat) (nowIso : String) : List Alert :=
  alerts ++ [⟨s!"alert-{now}", gameId, "current-user", threshold, false, nowIso⟩]

/-- Deduplication invariant claimed by C3, on the frontend alert shape: at
most one non-terminal (not yet triggered) alert per (user_id, game_id). -/
def dedupInvariant (alerts : List Alert) : Prop :=
  ∀ a ∈ alerts, ∀ b ∈ alerts,
    a.user_id = b.user_id → a.game_id = b.game_id →
    a.triggered = false → b.triggered = false → a = b

end AlertsContext

/-- Row of the alerts SQL table (part_000, lines 510-525). -/
structure AlertRow where
  user_id : String
  game_id : String
  threshold : ℚ
  triggered : Bool
deriving DecidableEq, Repr

/-- INSERT into the alerts table: accepted only when the CHECK constraint on
threshold holds and UNIQUE(user_id, game_id) is not violated. -/
def insertAlertRow (tbl : List AlertRow) (r : AlertRow) : Option (List AlertRow) :=
  if (decide (0 ≤ r.threshold) && decide (r.threshold ≤ 100)) &&
      tbl.all (fun q => !(q.user_id == r.user_id && q.game_id == r.game_id)) then
    some (tbl ++ [r])
  else
    none

/-- Uniqueness invariant of the alerts table: one row per (user_id, game_id). -/
def alertsTableUnique (tbl : List AlertRow) : Prop :=
  ∀ a ∈ tbl, ∀ b ∈ tbl, a.user_id = b.user_id → a.game_id = b.game_id → a = b

/-- Counterexample for claim C3: two addAlert calls for the same game leave
two distinct non-terminal alerts with the same user_id and game_id in the
context state; the second qualifying event created a duplicate instead of
updating the existing alert. -/
theorem c3_counterexample_duplicate_alerts :
    ¬ AlertsContext.dedupInvariant
      (AlertsContext.addAlert (AlertsContext.addAlert [] "g1" 65 1 "t1") "g1" 70 2 "t2") := by
  intro h
  have := h ⟨"alert-1", "g1", "current-user", 65, false, "t1"⟩ (by decide)
    ⟨"alert-2", "g1", "current-user", 70, false, "t2"⟩ (by decide) rfl rfl rfl rfl
  exact absurd this (by decide)

/-- Amended claim C3: the frontend addAlert never deduplicates: it always
appends one fresh non-terminal alert for (current-user, gameId) and carries
every existing alert over unchanged, so duplicate non-terminal alerts for
the same user and game can coexist in the context state.  The at-most-one
invariant holds only at the alerts SQL table, whose UNIQUE(user_id, game_id)
constraint rejects inserts of a duplicate pair. -/
theorem c3_addAlert_appends_without_dedup :
    (∀ alerts gameId threshold now nowIso, ∀ a ∈ alerts,
      a ∈ AlertsContext.addAlert alerts gameId threshold now nowIso) ∧
    (∀ alerts gameId threshold now nowIso,
      (AlertsContext.addAlert alerts gameId threshold now nowIso).length
        = alerts.length + 1 ∧
      ∃ b ∈ AlertsContext.addAlert alerts gameId threshold now nowIso,
        b.user_id = "current-user" ∧ b.game_id = gameId ∧ b.triggered = false) ∧
    (∀ tbl r tbl', alertsTableUnique tbl → insertAlertRow tbl r = some tbl' →
      alertsTableUnique tbl') := by
  refine ⟨?_, ?_, ?_⟩
  · intro alerts gameId threshold now nowIso a ha
    exact List.mem_append_left _ ha
  · intro alerts gameId threshold now nowIso
    refine ⟨by simp [AlertsContext.addAlert], ?_⟩
    exact ⟨⟨s!"alert-{now}", gameId, "current-user", threshold, false, nowIso⟩,
      List.mem_append_right _ (List.mem_singleton.mpr rfl), rfl, rfl, rfl⟩
  · intro tbl r tbl' hinv hins a ha b hb hu hg
    unfold insertAlertRow at hins
    split at hins
    case isTrue hc =>
      cases hins
      have hall := ((Bool.and_eq_true _ _).mp hc).2
      rw [List.all_eq_true] at hall
      rcases List.mem_append.mp ha with ha' | ha' <;>
        rcases List.mem_append.mp hb with hb' | hb'
      · exact hinv a ha' b hb' hu hg
      · rw [List.mem_singleton] at hb'
        subst hb'
        have := hall a ha'
        simp only [Bool.not_eq_true', Bool.and_eq_false_iff, beq_eq_false_iff_ne] at this
        rcases this with h | h
        · exact absurd hu h
        · exact absurd hg h
      · rw [List.mem_singleton] at ha'
        subst ha'
        have := hall b hb'
        simp only [Bool.not_eq_true', Bool.and_eq_false_iff, beq_eq_false_iff_ne] at this
        rcases this with h | h
        · exact absurd hu.symm h
        · exact absurd hg.symm h
      · rw [List.mem_singleton] at ha' hb'
        rw [ha', hb']
    case isFalse hc => cases hins

/-- Witness for the amended claim C3 at concrete inputs: an alert already in
the context survives an addAlert call, and inserting one row into the empty
alerts table preserves its uniqueness invariant. -/
theorem c3_addAlert_appends_without_dedup_witness :
    (⟨"alert-1", "g1", "current-user", 65, false, "t1"⟩ : Alert) ∈
      AlertsContext.addAlert [⟨"alert-1", "g1", "current-user", 65, false, "t1"⟩]
        "g1" 70 2 "t2" ∧
    alertsTableUnique [⟨"u1", "g1", 65, false⟩] :=
  ⟨c3_addAlert_appends_without_dedup.1 _ "g1" 70 2 "t2" _ (List.mem_singleton.mpr rfl),
    c3_addAlert_appends_without_dedup.2.2 [] ⟨"u1", "g1", 65, false⟩ _
      (by intro a ha; cases ha) (by decide)⟩

/-! ## Claim C4: queued alert retry exhaustion

The alert_queue table declaration is in src/ (part_000, lines 141-186); the
Alert Engine delivery loop that mutates it is not.  The delivery step below
is modelled from spec sections 3 and 4.4. -/

/-- Status column of the alert_queue table (part_000, lines 163-165). -/
inductive AlertQueueStatus
  | pending
  | sent
  | delivered
  | failed
  | expired
deriving DecidableEq, Repr

/-- QueuedAlert reduced to the delivery-tracking fields of the alert_queue
declaration (part_000, lines 168-172): status, retry_count, max_retries. -/
structure QueuedAlert where
  status : AlertQueueStatus
  retry_count : Nat
  max_retries : Nat
deriving DecidableEq, Repr

/-- Modelled from the spec: delivered and expired are terminal states with no
further transitions (spec section 3). -/
def QueuedAlert.terminal (a : QueuedAlert) : Bool :=
  a.status == .delivered || a.status == .expired

/-- Modelled from the spec: one delivery attempt of the Alert Engine (spec
section 4.4), which is absent from src/.  Only pending or failed-retriable
alerts are dequeued; transport success marks the alert delivered; transport
failure increments retry_count while it is below max_retries and expires the
alert once its retries are exhausted.  Returns none when no attempt is
performed. -/
def attemptDelivery (a : QueuedAlert) (transportOk : Bool) : Option QueuedAlert :=
  if a.status = .pending ∨ a.status = .failed then
    some (if transportOk then ⟨.delivered, a.retry_count, a.max_retries⟩
      else if a.retry_count < a.max_retries then
        ⟨.failed, a.retry_count + 1, a.max_retries⟩
      else ⟨.expired, a.retry_count, a.max_retries⟩)
  else
    none

/-- A whole sequence of transport outcomes applied to one queued alert;
attempts against a terminal alert perform nothing. -/
def runAttempts : QueuedAlert → List Bool → QueuedAlert
  | a, [] => a
  | a, ok :: rest =>
    match attemptDelivery a ok with
    | some a' => runAttempts a' rest
    | none => runAttempts a rest

/-- One delivery attempt keeps retry_count at or below max_retries. -/
theorem attemptDelivery_bound (a : QueuedAlert) (ok : Bool) (a' : QueuedAlert)
    (h : a.retry_count ≤ a.max_retries) (hs : attemptDelivery a ok = some a') :
    a'.retry_count ≤ a'.max_retries := by
  unfold attemptDelivery at hs
  split at hs
  case isTrue =>
    injection hs with hs
    subst hs
    split
    · exact h
    split
    · rename_i hlt
      exact hlt
    · exact h
  case isFalse => cases hs

/-- Claim C4: retry_count never exceeds max_retries along any sequence of
delivery attempts; an alert with max_retries three that fails four times ends
expired with retry_count three; and no delivery attempt is ever performed
against an expired alert. -/
theorem c4_retry_exhaustion :
    (∀ a oks, a.retry_count ≤ a.max_retries →
      (runAttempts a oks).retry_count ≤ (runAttempts a oks).max_retries) ∧
    runAttempts ⟨.pending, 0, 3⟩ [false, false, false, false] = ⟨.expired, 3, 3⟩ ∧
    (∀ a ok, a.status = .expired → attemptDelivery a ok = none) := by
  refine ⟨?_, by decide, ?_⟩
  · intro a oks
    induction oks generalizing a with
    | nil => intro h; exact h
    | cons ok rest ih =>
      intro h
      rw [runAttempts]
      cases hs : attemptDelivery a ok with
      | some a' => exact ih a' (attemptDelivery_bound a ok a' h hs)
      | none => exact ih a h
  · intro a ok h
    rw [attemptDelivery, if_neg]
    rw [h]
    rintro (hc | hc) <;> cases hc

/-- Witness for C4 at a concrete input: starting from a fresh pending alert
with three allowed retries, the retry bound holds after a failed then
successful attempt. -/
theorem c4_retry_exhaustion_witness :
    (runAttempts ⟨.pending, 0, 3⟩ [false, true]).retry_count ≤
      (runAttempts ⟨.pending, 0, 3⟩ [false, true]).max_retries :=
  c4_retry_exhaustion.1 ⟨.pending, 0, 3⟩ [false, true] (by decide)

/-! ## Claim C5: scheduler non-overlap

The pipeline_runs table declaration is in src/ (part_000, lines 104-130); the
Job Scheduler that writes it is not.  The scheduler steps below are modelled
from spec section 4.1. -/

/-- Status column of the pipeline_runs table (part_000, line 112). -/
inductive RunStatus
  | running
  | completed
  | failed
  | skipped
deriving DecidableEq, Repr

/-- Row of the pipeline_runs table reduced to the fields the non-overlap rule
concerns. -/
structure JobRun where
  job_name : String
  status : RunStatus
deriving DecidableEq, Repr

/-- Modelled from the spec: the scheduler state is the list of recorded
JobRuns (spec sections 3 and 4.1). -/
structure SchedState where
  runs : List JobRun
deriving DecidableEq, Repr

/-- Whether a JobRun of this job is currently running. -/
def hasRunning (s : SchedState) (name : String) : Bool :=
  s.runs.any (fun r => r.job_name == name && r.status == .running)

/-- Modelled from the spec: one cadence tick (spec section 4.1).  While a run
of the job is in progress the scheduler records a skipped JobRun and does not
invoke the handler; otherwise it creates a running JobRun and invokes the
handler.  The Bool tells whether the handler was invoked. -/
def tick (s : SchedState) (name : String) : SchedState × Bool :=
  if hasRunning s name then (⟨s.runs ++ [⟨name, .skipped⟩]⟩, false)
  else (⟨s.runs ++ [⟨name, .running⟩]⟩, true)

/-- Scheduler errors of the manual trigger path. -/
inductive SchedError
  | AlreadyRunning
deriving DecidableEq, Repr

/-- Modelled from the spec: run_now triggers immediate execution and fails
with AlreadyRunning while a run of the job is in progress (spec
section 4.1). -/
def run_now (s : SchedState) (name : String) : Except SchedError SchedState :=
  if hasRunning s name then .error .AlreadyRunning
  else .ok ⟨s.runs ++ [⟨name, .running⟩]⟩

/-- Modelled from the spec: finalizing an execution marks the running JobRun
of the job completed or failed (spec section 4.1). -/
def finishJob (s : SchedState) (name : String) (ok : Bool) : SchedState :=
  ⟨s.runs.map (fun r =>
    if r.job_name == name && r.status == .running then
      ⟨r.job_name, if ok then .completed else .failed⟩
    else r)⟩

/-- Scheduler events: cadence ticks, manual triggers, handler completions. -/
inductive SchedEvent
  | tickEv (name : String)
  | runNowEv (name : String)
  | finishEv (name : String) (ok : Bool)

/-- Effect of one scheduler event on the recorded runs; a rejected run_now
leaves the state unchanged. -/
def applyEvent (s : SchedState) : SchedEvent → SchedState
  | .tickEv name => (tick s name).1
  | .runNowEv name =>
    match run_now s name with
    | .ok s' => s'
    | .error _ => s
  | .finishEv name ok => finishJob s name ok

/-- Number of running JobRuns recorded for a job name. -/
def countRunning (s : SchedState) (name : String) : Nat :=
  s.runs.countP (fun r => r.job_name == name && r.status == .running)

/-- Non-overlap invariant: at most one running JobRun per job name. -/
def nonOverlap (s : SchedState) : Prop :=
  ∀ name, countRunning s name ≤ 1

/-- When no run of a job is in progress, no running JobRun of that job is
recorded. -/
theorem countRunning_eq_zero_of_not_hasRunning (s : SchedState) (name : String)
    (h : hasRunning s name = false) : countRunning s name = 0 := by
  rw [countRunning, List.countP_eq_zero]
  intro r hr
  rw [hasRunning, List.any_eq_false] at h
  exact h r hr

/-- Appending one run adds its own contribution to each running count. -/
theorem countRunning_append (s : SchedState) (run : JobRun) (name : String) :
    countRunning ⟨s.runs ++ [run]⟩ name =
      countRunning s name +
        (if run.job_name == name && run.status == .running then 1 else 0) := by
  simp [countRunning, List.countP_append, List.countP_cons]

/-- Mapping a function that never turns a non-matching element into a
matching one does not increase a countP. -/
theorem countP_map_le {α : Type} (p : α → Bool) (f : α → α)
    (h : ∀ a, p (f a) = true → p a = true) (l : List α) :
    List.countP p (l.map f) ≤ List.countP p l := by
  induction l with
  | nil => simp
  | cons a l ih =>
    simp only [List.map_cons, List.countP_cons]
    by_cases hp : p (f a) = true
    · rw [if_pos hp, if_pos (h a hp)]
      omega
    · rw [if_neg hp]
      split <;> omega

/-- Claim C5: every scheduler event preserves the at-most-one-running
invariant, and while a run of a job is in progress a cadence tick records a
skipped JobRun without invoking the handler and run_now fails with
AlreadyRunning. -/
theorem c5_scheduler_non_overlap :
    (∀ s e, nonOverlap s → nonOverlap (applyEvent s e)) ∧
    (∀ s name, hasRunning s name = true →
      tick s name = (⟨s.runs ++ [⟨name, .skipped⟩]⟩, false) ∧
      run_now s name = .error .AlreadyRunning) := by
  constructor
  · intro s e hinv
    cases e with
    | tickEv name =>
      intro name'
      simp only [applyEvent, tick]
      by_cases hr : hasRunning s name = true
      · rw [if_pos hr]
        rw [countRunning_append]
        simpa using hinv name'
      · rw [if_neg hr]
        rw [countRunning_append]
        by_cases hn : name = name'
        · subst hn
          rw [countRunning_eq_zero_of_not_hasRunning s name (Bool.not_eq_true _ ▸ hr)]
          split <;> omega
        · have : ((⟨name, .running⟩ : JobRun).job_name == name' &&
              (⟨name, .running⟩ : JobRun).status == RunStatus.running) = false := by
            simp [hn]
          rw [this]
          simpa using hinv name'
    | runNowEv name =>
      intro name'
      simp only [applyEvent, run_now]
      by_cases hr : hasRunning s name = true
      · rw [if_pos hr]
        exact hinv name'
      · rw [if_neg hr]
        simp only []
        rw [countRunning_append]
        by_cases hn : name = name'
        · subst hn
          rw [countRunning_eq_zero_of_not_hasRunning s name (Bool.not_eq_true _ ▸ hr)]
          split <;> omega
        · have : ((⟨name, .running⟩ : JobRun).job_name == name' &&
              (⟨name, .running⟩ : JobRun).status == RunStatus.running) = false := by
            simp [hn]
          rw [this]
          simpa using hinv name'
    | finishEv name ok =>
      intro name'
      simp only [applyEvent, finishJob]
      refine le_trans (countP_map_le _ _ ?_ s.runs) (hinv name')
      intro r hpr
      by_cases hc : (r.job_name == name && r.status == RunStatus.running) = true
      · rw [if_pos hc] at hpr
        simp only [Bool.and_eq_true, beq_iff_eq] at hpr
        cases ok <;> exact absurd hpr.2 (by simp)
      · rwa [if_neg hc] at hpr
  · intro s name h
    constructor
    · rw [tick, if_pos h]
    · rw [run_now, if_pos h]

/-- Witness for C5 at concrete inputs: with one running odds_snapshot run
recorded, the invariant is preserved by a tick, and the tick records a
skipped run without invoking the handler while run_now is rejected. -/
theorem c5_scheduler_non_overlap_witness :
    nonOverlap (applyEvent ⟨[⟨"odds_snapshot", .running⟩]⟩ (.tickEv "odds_snapshot")) ∧
    tick ⟨[⟨"odds_snapshot", .running⟩]⟩ "odds_snapshot" =
      (⟨[⟨"odds_snapshot", .running⟩] ++ [⟨"odds_snapshot", .skipped⟩]⟩, false) ∧
    run_now ⟨[⟨"odds_snapshot", .running⟩]⟩ "odds_snapshot" = .error .AlreadyRunning :=
  ⟨c5_scheduler_non_overlap.1 ⟨[⟨"odds_snapshot", .running⟩]⟩ (.tickEv "odds_snapshot")
      (by intro n; rw [countRunning]; exact List.countP_le_length _),
    c5_scheduler_non_overlap.2 ⟨[⟨"odds_snapshot", .running⟩]⟩ "odds_snapshot" (by decide)⟩

/-! ## Claim C6: drivers and key signals are never empty

mockData.ts builds a driver list per game (lines 372-422) and getKeySignals
(lines 475-501) derives the displayed signals; both pad with the generic
Model confidence high label until at least three entries exist. -/

namespace MockData

/-- Mock games from mockData.ts, lines 59-197.  The start times are derived
from the load-time clock; the strings tomorrow.toISOString(),
dayAfter.toISOString() and the helper createDateTime are parameters. -/
def mockGames (tomorrowIso dayAfterIso : String)
    (createDateTime : Nat → Nat → Nat → String) : List Game :=
  [ ⟨"1", .NBA, "Lakers", "Nuggets", tomorrowIso, -150, -140, some .upcoming,
      none, none, none, none, none⟩,
    ⟨"2", .NBA, "Celtics", "Heat", tomorrowIso, -180, -165, some .upcoming,
      none, none, none, none, none⟩,
    ⟨"4", .NBA, "Warriors", "Grizzlies", dayAfterIso, -120, -105, some .upcoming,
      none, none, none, none, none⟩,
    ⟨"3", .NFL, "Chiefs", "Bills", createDateTime 5 20 20, -165, -125, some .upcoming,
      some true, some (-3.5), some (-1.5), some 47.5, some 45.0⟩,
    ⟨"5", .NFL, "Ravens", "Steelers", createDateTime 1 13 0, -160, -145, some .upcoming,
      some false, some (-6.5), some (-5.0), some 44.5, some 46.0⟩,
    ⟨"6", .NFL, "Eagles", "Cowboys", createDateTime 2 13 0, -140, -120, some .upcoming,
      some false, some (-4.5), some (-3.0), some 48.5, some 49.5⟩,
    ⟨"7", .NFL, "49ers", "Rams", createDateTime 3 20 15, -180, -155, some .upcoming,
      some true, some (-7.0), some (-5.5), some 46.0, some 47.5⟩,
    ⟨"8", .NFL, "Packers", "Lions", createDateTime 4 13 0, -120, -105, some .upcoming,
      some false, some (-2.5), some (-1.0), some 52.5, some 51.0⟩,
    ⟨"9", .NFL, "Dolphins", "Jets", createDateTime 5 13 0, -150, -135, some .upcoming,
      some false, some (-5.0), some (-4.0), some 43.5, some 44.5⟩,
    ⟨"10", .NFL, "Bengals", "Browns", createDateTime 6 20 20, -135, -115, some .upcoming,
      some true, some (-3.0), some (-2.0), some 45.0, some 46.5⟩ ]

/-- Mock market signals from mockData.ts, lines 286-369. -/
def mockMarketSignals (nowIso : String) : List MarketSignal :=
  [ ⟨"1", "1", 82, -10, -0.3, nowIso⟩,
    ⟨"2", "2", 75, -15, -0.2, nowIso⟩,
    ⟨"4", "4", 55, -15, -0.1, nowIso⟩,
    ⟨"3", "3", 78, -40, -0.3, nowIso⟩,
    ⟨"5", "5", 71, -15, -0.15, nowIso⟩,
    ⟨"6", "6", 72, -15, -0.2, nowIso⟩,
    ⟨"7", "7", 76, -15, -0.25, nowIso⟩,
    ⟨"8", "8", 65, -15, -0.1, nowIso⟩,
    ⟨"9", "9", 68, -10, -0.1, nowIso⟩,
    ⟨"10", "10", 74, -10, -0.2, nowIso⟩ ]

/-- Driver construction of mockGamesWithPredictions (mockData.ts, lines
380-414): NFL games contribute a spread-movement driver when both spreads are
set and the movement magnitude is at least one point, a public-bias driver at
seventy percent or more, and a prime-time driver; all sports contribute a
line-movement driver below minus ten and an anomaly driver above sixty-five;
the list is padded to three entries with the generic label and capped at
six. -/
def buildDrivers (game : Game) (prediction : Prediction)
    (marketSignal : MarketSignal) : List DriverLabel :=
  let l0 : List DriverLabel := []
  let l1 := if game.sport = .NFL then
      let la := match game.spreadOpen, game.spreadCurrent with
        | some so, some sc =>
          let spreadMovement := sc - so
          if 1 ≤ |spreadMovement| then l0 ++ [.spreadMoved spreadMovement] else l0
        | _, _ => l0
      let lb := if 70 ≤ marketSignal.public_bet_percentage then
          la ++ [.publicGe70OnFavorite] else la
      if game.isPrimeTime = some true then lb ++ [.primeTimeGame] else lb
    else l0
  let l2 := if marketSignal.line_movement < -10 then
      l1 ++ [.lineMovementAgainstFavorite] else l1
  let l3 := if 65 < prediction.upset_probability then
      l2 ++ [.historicalAnomalyDetected] else l2
  let l4 := l3 ++ List.replicate (3 - l3.length) DriverLabel.modelConfidenceHigh
  l4.take 6

/-- JavaScript Array.map whose callback may throw: the first thrown error
aborts the whole construction. -/
def mapOrThrow {α β : Type} (f : α → Except String β) : List α → Except String (List β)
  | [] => .ok []
  | a :: rest =>
    match f a, mapOrThrow f rest with
    | .ok b, .ok bs => .ok (b :: bs)
    | .error e, _ => .error e
    | .ok _, .error e => .error e

/-- mockGamesWithPredictions (mockData.ts, lines 372-422): each game is
joined with its prediction and market signal, a missing join throws, and the
built driver list is attached. -/
def mockGamesWithPredictions (tomorrowIso dayAfterIso : String)
    (createDateTime : Nat → Nat → Nat → String) (nowIso : String) :
    Except String (List GameWithPrediction) :=
  mapOrThrow (fun game =>
      match (mockPredictions nowIso).find? (fun p => p.game_id == game.id),
          (mockMarketSignals nowIso).find? (fun m => m.game_id == game.id) with
      | some prediction, some marketSignal =>
        .ok ⟨game, prediction, marketSignal,
          some (buildDrivers game prediction marketSignal)⟩
      | _, _ => .error s!"Missing data for game {game.id}")
    (mockGames tomorrowIso dayAfterIso createDateTime)

/-- getKeySignals (mockData.ts, lines 475-501): the first three drivers when
any exist, otherwise up to three market-derived signals padded to exactly
three with the generic label. -/
def getKeySignals (game : GameWithPrediction) : List DriverLabel :=
  if (match game.drivers with
      | some ds => decide (0 < ds.length)
      | none => false) then
    (game.drivers.getD []).take 3
  else
    let signals : List DriverLabel :=
      (if game.marketSignal.line_movement < -10 then
        [.lineMovementAgainstFavorite] else []) ++
      (if 75 < game.marketSignal.public_bet_percentage then
        [.highPublicBiasDetected] else []) ++
      (if 65 < game.prediction.upset_probability then
        [.historicalAnomalyDetected] else [])
    (signals ++ List.replicate (3 - signals.length) DriverLabel.modelConfidenceHigh).take 3

/-- Every successful element of a throwing map comes from applying the
callback to a list element. -/
theorem mapOrThrow_ok_mem {α β : Type} (f : α → Except String β) :
    ∀ (l : List α) (out : List β), mapOrThrow f l = .ok out →
      ∀ b ∈ out, ∃ a ∈ l, f a = .ok b := by
  intro l
  induction l with
  | nil =>
    intro out h b hb
    rw [mapOrThrow] at h
    injection h with h
    subst h
    cases hb
  | cons a rest ih =>
    intro out h b hb
    rw [mapOrThrow] at h
    cases hfa : f a with
    | error e => rw [hfa] at h; cases h
    | ok b0 =>
      rw [hfa] at h
      cases hrest : mapOrThrow f rest with
      | error e => rw [hrest] at h; cases h
      | ok bs =>
        rw [hrest] at h
        injection h with h
        subst h
        rcases List.mem_cons.mp hb with hb | hb
        · exact ⟨a, List.mem_cons_self a rest, hb ▸ hfa⟩
        · obtain ⟨a', ha', hfa'⟩ := ih bs hrest b hb
          exact ⟨a', List.mem_cons_of_mem a ha', hfa'⟩

/-- The driver builder always yields at least one driver: the list is padded
to three entries before being capped at six. -/
theorem buildDrivers_ne_nil (game : Game) (prediction : Prediction)
    (marketSignal : MarketSignal) :
    buildDrivers game prediction marketSignal ≠ [] := by
  rw [buildDrivers]
  intro h
  rw [List.take_eq_nil_iff] at h
  rcases h with h | h
  · cases h
  · rcases List.append_eq_nil.mp h with ⟨h3, hrep⟩
    rw [h3] at hrep
    cases hrep

end MockData

/-- Claim C6: the explanation for a real score is never empty.  Every game of
the mock construction carries a nonempty driver list; getKeySignals never
returns an empty list; and when a game has no drivers and no market signal
clears its inclusion threshold, the result is exactly three generic Model
confidence high labels. -/
theorem c6_drivers_nonempty :
    (∀ tIso dIso cdt nIso l,
      MockData.mockGamesWithPredictions tIso dIso cdt nIso = .ok l →
      ∀ g ∈ l, ∃ ds, g.drivers = some ds ∧ ds ≠ []) ∧
    (∀ g : GameWithPrediction, MockData.getKeySignals g ≠ []) ∧
    (∀ g : GameWithPrediction,
      (g.drivers = none ∨ g.drivers = some []) →
      ¬ (g.marketSignal.line_movement < -10) →
      ¬ (75 < g.marketSignal.public_bet_percentage) →
      ¬ (65 < g.prediction.upset_probability) →
      MockData.getKeySignals g =
        [.modelConfidenceHigh, .modelConfidenceHigh, .modelConfidenceHigh]) := by
  refine ⟨?_, ?_, ?_⟩
  · intro tIso dIso cdt nIso l hok g hg
    obtain ⟨game, _, hfa⟩ :=
      MockData.mapOrThrow_ok_mem _ _ l hok g hg
    split at hfa
    · injection hfa with hfa
      subst hfa
      exact ⟨_, rfl, MockData.buildDrivers_ne_nil game _ _⟩
    · cases hfa
  · intro g
    rw [MockData.getKeySignals]
    split
    case isTrue hc =>
      cases hds : g.drivers with
      | none => rw [hds] at hc; cases hc
      | some ds =>
        rw [hds] at hc
        simp only [Option.getD_some]
        have hlen : 0 < ds.length := by simpa using hc
        intro h
        rw [List.take_eq_nil_iff] at h
        rcases h with h | h
        · cases h
        · rw [h] at hlen
          cases hlen
    case isFalse =>
      intro h
      rw [List.take_eq_nil_iff] at h
      rcases h with h | h
      · cases h
      · rcases List.append_eq_nil.mp h with ⟨hs, hrep⟩
        rw [hs] at hrep
        cases hrep
  · intro g hds hlm hpb hup
    rw [MockData.getKeySignals]
    rw [if_neg, if_neg hlm, if_neg hpb, if_neg hup]
    · rfl
    · rcases hds with h | h <;> rw [h] <;> simp

/-- Witness for C6 at a concrete input: a game without drivers whose signals
all miss their thresholds receives the three generic fallback labels. -/
theorem c6_drivers_nonempty_witness :
    MockData.getKeySignals
      ⟨⟨"1", .NBA, "Lakers", "Nuggets", "t", -150, -140, some .upcoming,
          none, none, none, none, none⟩,
        ⟨"1", "1", 45, "v1.0", 12, "n"⟩, ⟨"1", "1", 55, -5, 0.1, "n"⟩, none⟩ =
      [.modelConfidenceHigh, .modelConfidenceHigh, .modelConfidenceHigh] :=
  c6_drivers_nonempty.2.2 _ (Or.inl rfl) (by norm_num) (by norm_num) (by norm_num)

/-! ## Claim C7: GET /games transformation

gamesApi.ts (part_000, lines 605-721) declares the raw ApiGame shape,
transformApiGame (lines 655-688) and fetchGames (lines 693-705). -/

namespace GamesApi

/-- ApiGame from gamesApi.ts (part_000, lines 618-650): the raw API game,
including the optional venue field.  The sport string arrives as one of the
six sport values and the source casts it with as Sport; the cast is the
runtime identity, so the field is typed Sport here.  The nested prediction
and marketSignal records have exactly the fields of the frontend Prediction
and MarketSignal interfaces. -/
structure ApiGame where
  id : String
  sport : Sport
  team_favorite : String
  team_underdog : String
  start_time : String
  odds_open : ℚ
  odds_current : ℚ
  status : GameStatus
  isPrimeTime : Option Bool
  spreadOpen : Option ℚ
  spreadCurrent : Option ℚ
  totalOpen : Option ℚ
  totalCurrent : Option ℚ
  venue : Option String
  prediction : Prediction
  marketSignal : MarketSignal
  drivers : Option (List DriverLabel)
deriving DecidableEq, Repr

/-- Envelope of a successful GET /games response (gamesApi.ts, lines
612-616). -/
structure GamesApiResponse where
  games : List ApiGame
  fetched_at : String
  cached : Bool
deriving DecidableEq, Repr

/-- Result shape of fetchGames (gamesApi.ts, lines 693-705). -/
structure FetchGamesResult where
  games : List GameWithPrediction
  fetchedAt : String
  cached : Bool
deriving DecidableEq, Repr

/-- transformApiGame (gamesApi.ts, lines 655-688): rebuilds the frontend
GameWithPrediction field by field from the ApiGame.  The venue field of the
ApiGame is not copied; the frontend GameWithPrediction type has no venue
field. -/
def transformApiGame (apiGame : ApiGame) : GameWithPrediction :=
  ⟨⟨apiGame.id, apiGame.sport, apiGame.team_favorite, apiGame.team_underdog,
      apiGame.start_time, apiGame.odds_open, apiGame.odds_current,
      some apiGame.status, apiGame.isPrimeTime, apiGame.spreadOpen,
      apiGame.spreadCurrent, apiGame.totalOpen, apiGame.totalCurrent⟩,
    ⟨apiGame.prediction.id, apiGame.prediction.game_id,
      apiGame.prediction.upset_probability, apiGame.prediction.model_version,
      apiGame.prediction.confidence_band, apiGame.prediction.created_at⟩,
    ⟨apiGame.marketSignal.id, apiGame.marketSignal.game_id,
      apiGame.marketSignal.public_bet_percentage, apiGame.marketSignal.line_movement,
      apiGame.marketSignal.sentiment_score, apiGame.marketSignal.created_at⟩,
    apiGame.drivers⟩

/-- fetchGames (gamesApi.ts, lines 693-705) applied to a successful
GET /games response: transforms each game and passes the envelope through. -/
def fetchGames (response : GamesApiResponse) : FetchGamesResult :=
  ⟨response.games.map transformApiGame, response.fetched_at, response.cached⟩

end GamesApi

/-- Counterexample for claim C7: two API games that differ only in their
venue field are transformed to the same GameWithPrediction, so
transformApiGame does not preserve every field of the API game: the venue is
dropped. -/
theorem c7_counterexample_venue_dropped :
    GamesApi.transformApiGame
        ⟨"g1", .NFL, "Chiefs", "Bills", "2025-01-05T01:20:00Z", -165, -125,
          .upcoming, some true, some (-3.5), some (-1.5), some 47.5, some 45.0,
          some "Arrowhead", ⟨"p1", "g1", 62, "v1.0", 10, "t"⟩,
          ⟨"m1", "g1", 78, -40, -0.3, "t"⟩, none⟩ =
      GamesApi.transformApiGame
        ⟨"g1", .NFL, "Chiefs", "Bills", "2025-01-05T01:20:00Z", -165, -125,
          .upcoming, some true, some (-3.5), some (-1.5), some 47.5, some 45.0,
          none, ⟨"p1", "g1", 62, "v1.0", 10, "t"⟩,
          ⟨"m1", "g1", 78, -40, -0.3, "t"⟩, none⟩ ∧
    (⟨"g1", .NFL, "Chiefs", "Bills", "2025-01-05T01:20:00Z", -165, -125,
        .upcoming, some true, some (-3.5), some (-1.5), some 47.5, some 45.0,
        some "Arrowhead", ⟨"p1", "g1", 62, "v1.0", 10, "t"⟩,
        ⟨"m1", "g1", 78, -40, -0.3, "t"⟩, none⟩ : GamesApi.ApiGame) ≠
      ⟨"g1", .NFL, "Chiefs", "Bills", "2025-01-05T01:20:00Z", -165, -125,
        .upcoming, some true, some (-3.5), some (-1.5), some 47.5, some 45.0,
        none, ⟨"p1", "g1", 62, "v1.0", 10, "t"⟩,
        ⟨"m1", "g1", 78, -40, -0.3, "t"⟩, none⟩ :=
  ⟨rfl, fun h => Option.noConfusion (congrArg GamesApi.ApiGame.venue h)⟩

/-- Amended claim C7: the client-side transformation preserves every field of
the API game except venue, which is dropped because the frontend
GameWithPrediction type has no venue field; the nested prediction and market
signal records and the driver list are preserved whole, and fetchGames
passes the cached flag and the fetched_at timestamp through unchanged while
transforming each game of the envelope. -/
theorem c7_transform_preserves_fields_except_venue :
    (∀ a : GamesApi.ApiGame,
      (GamesApi.transformApiGame a).id = a.id ∧
      (GamesApi.transformApiGame a).sport = a.sport ∧
      (GamesApi.transformApiGame a).team_favorite = a.team_favorite ∧
      (GamesApi.transformApiGame a).team_underdog = a.team_underdog ∧
      (GamesApi.transformApiGame a).start_time = a.start_time ∧
      (GamesApi.transformApiGame a).odds_open = a.odds_open ∧
      (GamesApi.transformApiGame a).odds_current = a.odds_current ∧
      (GamesApi.transformApiGame a).status = some a.status ∧
      (GamesApi.transformApiGame a).isPrimeTime = a.isPrimeTime ∧
      (GamesApi.transformApiGame a).spreadOpen = a.spreadOpen ∧
      (GamesApi.transformApiGame a).spreadCurrent = a.spreadCurrent ∧
      (GamesApi.transformApiGame a).totalOpen = a.totalOpen ∧
      (GamesApi.transformApiGame a).totalCurrent = a.totalCurrent ∧
      (GamesApi.transformApiGame a).prediction = a.prediction ∧
      (GamesApi.transformApiGame a).marketSignal = a.marketSignal ∧
      (GamesApi.transformApiGame a).drivers = a.drivers) ∧
    (∀ r : GamesApi.GamesApiResponse,
      (GamesApi.fetchGames r).games = r.games.map GamesApi.transformApiGame ∧
      (GamesApi.fetchGames r).fetchedAt = r.fetched_at ∧
      (GamesApi.fetchGames r).cached = r.cached) :=
  ⟨fun _ => ⟨rfl, rfl, rfl, rfl, rfl, rfl, rfl, rfl, rfl, rfl, rfl, rfl, rfl,
    rfl, rfl, rfl⟩, fun _ => ⟨rfl, rfl, rfl⟩⟩

/-! ## Claim C8: GamesContext filteredGames

Two GamesContext variants exist: src/frontend/src/context/GamesContext.tsx
(lines 88-179) applies minUpsPct to every sport and adds per-sport featured
filters, while src/upsetiq/frontend/src/context/GamesContext.tsx (lines
88-127) applies minUpsPct only to NFL games. -/

/-- FilterState interface from src/frontend/src/types/index.ts. -/
structure FilterState where
  sport : Option Sport
  date : Option JsDate
  confidenceThreshold : ℚ
  minUpsPct : Option ℚ
  onlyPrimeTime : Option Bool
  onlyNationalTv : Option Bool
  onlyHighStakes : Option Bool
  onlyMarquee : Option Bool
  onlyFeatured : Option Bool
  onlyTopGames : Option Bool
deriving DecidableEq, Repr

/-- The calendar-day comparison of the date filter: the game passes when its
parsed start time agrees with the filter date on getDate, getMonth and
getFullYear. -/
def sameCalendarDay (gameDate filterDate : JsDate) : Bool :=
  gameDate.day == filterDate.day && gameDate.month == filterDate.month &&
    gameDate.year == filterDate.year

/-- Descending upset-probability order used by every
sort((a, b) => b.prediction.upset_probability - a.prediction.upset_probability)
in the frontend. -/
def upsDesc (a b : GameWithPrediction) : Prop :=
  b.prediction.upset_probability ≤ a.prediction.upset_probability

instance : DecidableRel upsDesc := fun a b =>
  inferInstanceAs (Decidable (b.prediction.upset_probability ≤ a.prediction.upset_probability))

instance : IsTotal GameWithPrediction upsDesc :=
  ⟨fun a b => le_total b.prediction.upset_probability a.prediction.upset_probability⟩

instance : IsTrans GameWithPrediction upsDesc :=
  ⟨fun _ _ _ hab hbc => le_trans hbc hab⟩

namespace UpsetiqCtx

/-- Filter predicate of filteredGames in
src/upsetiq/frontend/src/context/GamesContext.tsx, lines 88-127: the
sequential early returns for sport mismatch, the NFL-only minUpsPct branch
versus the confidenceThreshold, the NFL prime-time restriction, and the
calendar-day filter. -/
def passesFilter (jsParseDate : String → JsDate) (filter : FilterState)
    (game : GameWithPrediction) : Bool :=
  (match filter.sport with
    | some s => game.sport == s
    | none => true) &&
  (if game.sport == Sport.NFL && filter.minUpsPct.isSome then
      match filter.minUpsPct with
      | some m => decide (m ≤ game.prediction.upset_probability)
      | none => true
    else decide (filter.confidenceThreshold ≤ game.prediction.upset_probability)) &&
  (!(game.sport == Sport.NFL && filter.onlyPrimeTime == some true &&
      !(game.isPrimeTime == some true))) &&
  (match filter.date with
    | some fd => sameCalendarDay (jsParseDate game.start_time) fd
    | none => true)

/-- filteredGames of the upsetiq GamesContext. -/
def filteredGames (jsParseDate : String → JsDate) (games : List GameWithPrediction)
    (filter : FilterState) : List GameWithPrediction :=
  games.filter (passesFilter jsParseDate filter)

end UpsetiqCtx

namespace FrontendCtx

/-- Threshold of the per-sport featured filters (GamesContext.tsx, lines
112-162): the games of the sport, sorted by upset probability descending,
indexed at Math.floor(length * 0.3) (embedded as 3 * length / 10 in natural
division), defaulting to zero past the end. -/
def featuredThreshold (games : List GameWithPrediction) (s : Sport) : ℚ :=
  let sorted := (games.filter (fun g => g.sport == s)).insertionSort upsDesc
  ((sorted[3 * sorted.length / 10]?).map
    (fun g => g.prediction.upset_probability)).getD 0

/-- Filter predicate of filteredGames in
src/frontend/src/context/GamesContext.tsx, lines 88-179: sport mismatch, the
minUpsPct-or-confidenceThreshold bound for every sport, the NFL prime-time
restriction, the five featured proxies, and the calendar-day filter. -/
def passesFilter (jsParseDate : String → JsDate) (games : List GameWithPrediction)
    (filter : FilterState) (game : GameWithPrediction) : Bool :=
  (match filter.sport with
    | some s => game.sport == s
    | none => true) &&
  (match filter.minUpsPct with
    | some m => decide (m ≤ game.prediction.upset_probability)
    | none => decide (filter.confidenceThreshold ≤ game.prediction.upset_probability)) &&
  (!(game.sport == Sport.NFL && filter.onlyPrimeTime == some true &&
      !(game.isPrimeTime == some true))) &&
  (!(game.sport == Sport.NBA && filter.onlyNationalTv == some true &&
      decide (game.prediction.upset_probability < featuredThreshold games Sport.NBA))) &&
  (!(game.sport == Sport.MLB && filter.onlyHighStakes == some true &&
      decide (game.prediction.upset_probability < featuredThreshold games Sport.MLB))) &&
  (!(game.sport == Sport.NHL && filter.onlyMarquee == some true &&
      decide (game.prediction.upset_probability < featuredThreshold games Sport.NHL))) &&
  (!(game.sport == Sport.Soccer && filter.onlyFeatured == some true &&
      decide (game.prediction.upset_probability < featuredThreshold games Sport.Soccer))) &&
  (!(game.sport == Sport.CFB && filter.onlyTopGames == some true &&
      decide (game.prediction.upset_probability < featuredThreshold games Sport.CFB))) &&
  (match filter.date with
    | some fd => sameCalendarDay (jsParseDate game.start_time) fd
    | none => true)

/-- filteredGames of the src/frontend GamesContext; the featured thresholds
read the whole games list captured by the closure. -/
def filteredGames (jsParseDate : String → JsDate) (games : List GameWithPrediction)
    (filter : FilterState) : List GameWithPrediction :=
  games.filter (passesFilter jsParseDate games filter)

end FrontendCtx

/-- Counterexample for claim C8: in the upsetiq GamesContext variant the
minUpsPct bound applies only to NFL games.  With sport NBA, minUpsPct 60 and
confidenceThreshold 0, an NBA game with upset probability 50 is kept by
filteredGames although 50 is below the defined minUpsPct. -/
theorem c8_counterexample_minUpsPct_ignored_for_non_nfl :
    (⟨⟨"g1", .NBA, "Lakers", "Nuggets", "t", -150, -140, some .upcoming,
        none, none, none, none, none⟩,
      ⟨"p1", "g1", 50, "v1.0", 8, "n"⟩, ⟨"m1", "g1", 55, -5, 0, "n"⟩, none⟩ :
        GameWithPrediction) ∈
      UpsetiqCtx.filteredGames (fun _ => ⟨0, 1, 0, 1970⟩)
        [⟨⟨"g1", .NBA, "Lakers", "Nuggets", "t", -150, -140, some .upcoming,
            none, none, none, none, none⟩,
          ⟨"p1", "g1", 50, "v1.0", 8, "n"⟩, ⟨"m1", "g1", 55, -5, 0, "n"⟩, none⟩]
        ⟨some .NBA, none, 0, some 60, none, none, none, none, none, none⟩ ∧
    (⟨some .NBA, none, 0, some 60, none, none, none, none, none,
        none⟩ : FilterState).minUpsPct = some 60 ∧
    ((50 : ℚ) < 60) := by
  refine ⟨by decide, rfl, by norm_num⟩

/-- Amended claim C8: in either GamesContext variant every filtered game is
an element of the input list and matches a set sport filter.  The minimum
score bound differs between the variants: the src/frontend variant holds
every game to minUpsPct when it is defined and to confidenceThreshold
otherwise, while the upsetiq variant applies minUpsPct only to NFL games and
holds every other game to confidenceThreshold even when minUpsPct is
defined. -/
theorem c8_filteredGames_sound :
    (∀ jsParseDate games filter g,
      g ∈ FrontendCtx.filteredGames jsParseDate games filter →
      g ∈ games ∧ (∀ s, filter.sport = some s → g.sport = s) ∧
      ((∃ m, filter.minUpsPct = some m ∧ m ≤ g.prediction.upset_probability) ∨
        (filter.minUpsPct = none ∧
          filter.confidenceThreshold ≤ g.prediction.upset_probability))) ∧
    (∀ jsParseDate games filter g,
      g ∈ UpsetiqCtx.filteredGames jsParseDate games filter →
      g ∈ games ∧ (∀ s, filter.sport = some s → g.sport = s) ∧
      ((g.sport = Sport.NFL ∧
          ∃ m, filter.minUpsPct = some m ∧ m ≤ g.prediction.upset_probability) ∨
        filter.confidenceThreshold ≤ g.prediction.upset_probability)) := by
  constructor
  · intro jsParseDate games filter g hg
    rw [FrontendCtx.filteredGames, List.mem_filter] at hg
    obtain ⟨hmem, hp⟩ := hg
    rw [FrontendCtx.passesFilter] at hp
    simp only [Bool.and_eq_true] at hp
    obtain ⟨⟨⟨⟨⟨⟨⟨⟨hsp, hth⟩, -⟩, -⟩, -⟩, -⟩, -⟩, -⟩, -⟩ := hp
    refine ⟨hmem, ?_, ?_⟩
    · intro s hs
      rw [hs] at hsp
      exact beq_iff_eq.mp hsp
    · cases hmu : filter.minUpsPct with
      | some m =>
        rw [hmu] at hth
        exact Or.inl ⟨m, rfl, by simpa using hth⟩
      | none =>
        rw [hmu] at hth
        exact Or.inr ⟨rfl, by simpa using hth⟩
  · intro jsParseDate games filter g hg
    rw [UpsetiqCtx.filteredGames, List.mem_filter] at hg
    obtain ⟨hmem, hp⟩ := hg
    rw [UpsetiqCtx.passesFilter] at hp
    simp only [Bool.and_eq_true] at hp
    obtain ⟨⟨⟨hsp, hth⟩, -⟩, -⟩ := hp
    refine ⟨hmem, ?_, ?_⟩
    · intro s hs
      rw [hs] at hsp
      exact beq_iff_eq.mp hsp
    · by_cases hc : (g.sport == Sport.NFL) = true ∧ filter.minUpsPct.isSome = true
      · rw [if_pos hc] at hth
        obtain ⟨m, hm⟩ := Option.isSome_iff_exists.mp hc.2
        rw [hm] at hth
        exact Or.inl ⟨beq_iff_eq.mp hc.1, m, hm, by simpa using hth⟩
      · rw [if_neg hc] at hth
        exact Or.inr (by simpa using hth)

/-- Witness for the amended claim C8 at concrete inputs: an NFL game with
upset probability 70 passing the src/frontend filter with sport NFL and
minUpsPct 55 is in the input list, matches the sport and meets the bound. -/
theorem c8_filteredGames_sound_witness :
    ((⟨⟨"g1", .NFL, "Chiefs", "Bills", "t", -165, -125, some .upcoming,
        some true, none, none, none, none⟩,
      ⟨"p1", "g1", 70, "v1.0", 10, "n"⟩, ⟨"m1", "g1", 78, -40, 0, "n"⟩, none⟩ :
        GameWithPrediction) ∈
      [(⟨⟨"g1", .NFL, "Chiefs", "Bills", "t", -165, -125, some .upcoming,
          some true, none, none, none, none⟩,
        ⟨"p1", "g1", 70, "v1.0", 10, "n"⟩, ⟨"m1", "g1", 78, -40, 0, "n"⟩, none⟩ :
          GameWithPrediction)] ∧
      (∀ s, (⟨some .NFL, none, 0, some 55, none, none, none, none, none,
          none⟩ : FilterState).sport = some s →
        (⟨⟨"g1", .NFL, "Chiefs", "Bills", "t", -165, -125, some .upcoming,
            some true, none, none, none, none⟩,
          ⟨"p1", "g1", 70, "v1.0", 10, "n"⟩, ⟨"m1", "g1", 78, -40, 0, "n"⟩, none⟩ :
            GameWithPrediction).sport = s) ∧
      ((∃ m, (⟨some .NFL, none, 0, some 55, none, none, none, none, none,
            none⟩ : FilterState).minUpsPct = some m ∧
          m ≤ (⟨⟨"g1", .NFL, "Chiefs", "Bills", "t", -165, -125, some .upcoming,
              some true, none, none, none, none⟩,
            ⟨"p1", "g1", 70, "v1.0", 10, "n"⟩, ⟨"m1", "g1", 78, -40, 0, "n"⟩,
            none⟩ : GameWithPrediction).prediction.upset_probability) ∨
        ((⟨some .NFL, none, 0, some 55, none, none, none, none, none,
            none⟩ : FilterState).minUpsPct = none ∧
          (⟨some .NFL, none, 0, some 55, none, none, none, none, none,
              none⟩ : FilterState).confidenceThreshold ≤
            (⟨⟨"g1", .NFL, "Chiefs", "Bills", "t", -165, -125, some .upcoming,
                some true, none, none, none, none⟩,
              ⟨"p1", "g1", 70, "v1.0", 10, "n"⟩, ⟨"m1", "g1", 78, -40, 0, "n"⟩,
              none⟩ : GameWithPrediction).prediction.upset_probability))) :=
  c8_filteredGames_sound.1 (fun _ => ⟨0, 1, 0, 1970⟩) _ _ _ (by decide)

/-! ## Claim C9: groupGamesByDay

groupGamesByDay (part_013, lines 8-40) walks the games of the requested
sport, buckets them in a Map keyed by the locale day label, sorts each bucket
by upset probability descending, and sorts the buckets chronologically. -/

namespace SportUtils

/-- DayGroup from part_013, line 3. -/
structure DayGroup where
  label : String
  games : List GameWithPrediction
deriving DecidableEq, Repr

/-- Chronological key of the group sort:
new Date(group.games[0]?.start_time ?? 0).getTime(); new Date(0) has time
zero. -/
def groupTime (jsParseDate : String → JsDate) (grp : DayGroup) : Int :=
  match grp.games.head? with
  | some g => (jsParseDate g.start_time).time
  | none => 0

/-- Ascending order on the chronological keys. -/
def groupTimeAsc (jsParseDate : String → JsDate) (a b : DayGroup) : Prop :=
  groupTime jsParseDate a ≤ groupTime jsParseDate b

instance (jsParseDate : String → JsDate) : DecidableRel (groupTimeAsc jsParseDate) :=
  fun a b => inferInstanceAs (Decidable (groupTime jsParseDate a ≤ groupTime jsParseDate b))

instance (jsParseDate : String → JsDate) : IsTotal DayGroup (groupTimeAsc jsParseDate) :=
  ⟨fun a b => le_total (groupTime jsParseDate a) (groupTime jsParseDate b)⟩

instance (jsParseDate : String → JsDate) : IsTrans DayGroup (groupTimeAsc jsParseDate) :=
  ⟨fun _ _ _ hab hbc => le_trans hab hbc⟩

/-- The keys of a JavaScript Map in first-insertion order. -/
def insertionOrderKeys (labels : List String) : List String :=
  labels.foldl (fun acc lbl => if lbl ∈ acc then acc else acc ++ [lbl]) []

/-- groupGamesByDay (part_013, lines 8-40).  The Map keyed by the locale day
label keeps keys in first-insertion order and each bucket keeps its games in
encounter order, so the grouping is embedded as the labels in
first-occurrence order paired with the sport-filtered games bearing each
label.  Date parsing and locale rendering of new Date(start_time) are the
parameters jsParseDate and dayLabel. -/
def groupGamesByDay (jsParseDate : String → JsDate) (dayLabel : JsDate → String)
    (games : List GameWithPrediction) (sport : Sport) : List DayGroup :=
  let filtered := games.filter (fun g => g.sport == sport)
  let labels := insertionOrderKeys
    (filtered.map (fun g => dayLabel (jsParseDate g.start_time)))
  let groups := labels.map (fun lbl =>
    DayGroup.mk lbl
      ((filtered.filter (fun g => dayLabel (jsParseDate g.start_time) == lbl)).insertionSort
        upsDesc))
  groups.insertionSort (groupTimeAsc jsParseDate)

end SportUtils

/-- Claim C9: every group returned by groupGamesByDay contains only games of
the requested sport, and within each group the games are sorted in
non-increasing order of upset probability. -/
theorem c9_groupGamesByDay_sport_and_sorted :
    ∀ jsParseDate dayLabel games sport grp,
      grp ∈ SportUtils.groupGamesByDay jsParseDate dayLabel games sport →
      (∀ g ∈ grp.games, g.sport = sport) ∧ grp.games.Sorted upsDesc := by
  intro jsParseDate dayLabel games sport grp hgrp
  rw [SportUtils.groupGamesByDay] at hgrp
  rw [(List.perm_insertionSort (SportUtils.groupTimeAsc jsParseDate) _).mem_iff] at hgrp
  obtain ⟨lbl, -, hlbl⟩ := List.mem_map.mp hgrp
  constructor
  · intro g hgmem
    rw [← hlbl] at hgmem
    simp only [] at hgmem
    rw [List.mem_insertionSort] at hgmem
    have hfil := (List.mem_filter.mp hgmem).1
    have := (List.mem_filter.mp hfil).2
    exact beq_iff_eq.mp this
  · rw [← hlbl]
    exact List.sorted_insertionSort upsDesc _

/-- Witness for C9 at concrete inputs: two NFL games with scores 50 and 70
under a constant day label form one group whose games all carry sport NFL
and are sorted with the 70-score game first. -/
theorem c9_groupGamesByDay_sport_and_sorted_witness :
    (∀ g ∈ (SportUtils.DayGroup.mk "day"
        [⟨⟨"g2", .NFL, "Ravens", "Steelers", "t2", -160, -145, some .upcoming,
            none, none, none, none, none⟩,
          ⟨"p2", "g2", 70, "v1.0", 10, "n"⟩, ⟨"m2", "g2", 71, -15, 0, "n"⟩, none⟩,
          ⟨⟨"g1", .NFL, "Chiefs", "Bills", "t1", -165, -125, some .upcoming,
            none, none, none, none, none⟩,
          ⟨"p1", "g1", 50, "v1.0", 10, "n"⟩, ⟨"m1", "g1", 78, -40, 0, "n"⟩,
          none⟩]).games,
      g.sport = Sport.NFL) ∧
    (SportUtils.DayGroup.mk "day"
      [⟨⟨"g2", .NFL, "Ravens", "Steelers", "t2", -160, -145, some .upcoming,
          none, none, none, none, none⟩,
        ⟨"p2", "g2", 70, "v1.0", 10, "n"⟩, ⟨"m2", "g2", 71, -15, 0, "n"⟩, none⟩,
        ⟨⟨"g1", .NFL, "Chiefs", "Bills", "t1", -165, -125, some .upcoming,
          none, none, none, none, none⟩,
        ⟨"p1", "g1", 50, "v1.0", 10, "n"⟩, ⟨"m1", "g1", 78, -40, 0, "n"⟩,
        none⟩]).games.Sorted upsDesc :=
  c9_groupGamesByDay_sport_and_sorted (fun _ => ⟨0, 1, 0, 1970⟩) (fun _ => "day")
    [⟨⟨"g1", .NFL, "Chiefs", "Bills", "t1", -165, -125, some .upcoming,
        none, none, none, none, none⟩,
      ⟨"p1", "g1", 50, "v1.0", 10, "n"⟩, ⟨"m1", "g1", 78, -40, 0, "n"⟩, none⟩,
      ⟨⟨"g2", .NFL, "Ravens", "Steelers", "t2", -160, -145, some .upcoming,
        none, none, none, none, none⟩,
      ⟨"p2", "g2", 70, "v1.0", 10, "n"⟩, ⟨"m2", "g2", 71, -15, 0, "n"⟩, none⟩]
    Sport.NFL _ (by decide)

/-! ## Claim C10: ApiClient error handling

ApiClient.get (src/frontend/src/services/api.ts, lines 41-80) and
ApiClient.post (lines 85-116) wrap fetch in a try/catch that converts caught
errors without a truthy status into a status-zero network ApiError and
rethrows caught ApiErrors.  The ok branch returns response.json() without
awaiting it, so that promise resolves after the try/catch has exited and its
rejection reaches the caller unconverted. -/

namespace Api

/-- ApiError interface (api.ts, lines 25-29). -/
structure ApiError where
  message : String
  status : Nat
  detail : Option String
deriving DecidableEq, Repr

/-- A JSON value as this client observes it: the whole body on the ok path
and the optional detail property on the error path. -/
structure Js where
  detail : Option String
deriving DecidableEq, Repr

/-- Behavior of the network for one request: fetch either rejects with a
network error, or resolves with a response carrying ok, status and a body
whose JSON parse succeeds or fails. -/
inductive FetchOutcome
  | netError (msg : String)
  | response (ok : Bool) (status : Nat) (body : Except String Js)
deriving Repr

/-- What a call leaves the caller with when it does not return: a thrown
ApiError, or a raw exception that is not an ApiError. -/
inductive Thrown
  | api (e : ApiError)
  | raw (msg : String)
deriving DecidableEq, Repr

/-- The message of the status-zero ApiError built in the catch blocks. -/
def networkErrorMessage : String := "Network error - please check your connection"

/-- errorData of the non-ok branch:
await response.json().catch(() => ({})) — a parse failure yields the empty
object, whose detail property is absent. -/
def errorDataOf : Except String Js → Js
  | .ok j => j
  | .error _ => ⟨none⟩

/-- errorData.detail || `HTTP status` with JavaScript falsy semantics: an
absent or empty detail string falls back to the HTTP-status message. -/
def errorMessage (detail : Option String) (status : Nat) : String :=
  match detail with
  | some d => if d = "" then s!"HTTP {status}" else d
  | none => s!"HTTP {status}"

/-- ApiClient.get (api.ts, lines 41-80) as a function of the network
behavior.  A fetch rejection is caught and converted (the caught error has
no status property).  A non-ok response raises an ApiError carrying the HTTP
status, rethrown as-is by the catch when the status is truthy and converted
to the status-zero network error otherwise.  An ok response returns
response.json() without awaiting it, so an unparsable ok body escapes as a
raw exception. -/
def apiClientGet (outcome : FetchOutcome) : Except Thrown Js :=
  match outcome with
  | .netError msg =>
    .error (.api ⟨networkErrorMessage, 0, some msg⟩)
  | .response true _ body =>
    match body with
    | .ok j => .ok j
    | .error msg => .error (.raw msg)
  | .response false status body =>
    let errorData := errorDataOf body
    let e : ApiError := ⟨errorMessage errorData.detail status, status, errorData.detail⟩
    if e.status ≠ 0 then .error (.api e)
    else .error (.api ⟨networkErrorMessage, 0, some e.message⟩)

/-- ApiClient.post (api.ts, lines 85-116): JSON.stringify of the request
body runs inside the try block, so a serialization failure is caught and
converted to the status-zero network ApiError; lines 96-114 then coincide
with the body of get, including the unawaited ok-body return. -/
def apiClientPost (stringifyError : Option String) (outcome : FetchOutcome) :
    Except Thrown Js :=
  match stringifyError with
  | some msg => .error (.api ⟨networkErrorMessage, 0, some msg⟩)
  | none => apiClientGet outcome

end Api

/-- Counterexample for claim C10: when the server answers ok but the body is
not valid JSON, the rejection of the unawaited response.json() promise
bypasses the catch, and the caller receives a raw exception instead of an
ApiError with a numeric status. -/
theorem c10_counterexample_ok_body_parse_leak :
    Api.apiClientGet (.response true 200 (.error "Unexpected token")) =
      .error (.raw "Unexpected token") ∧
    ∀ e : Api.ApiError, Api.Thrown.raw "Unexpected token" ≠ .api e :=
  ⟨rfl, fun _ h => Api.Thrown.noConfusion h⟩

/-- Amended claim C10: get and post return the parsed JSON body of an ok
response and convert every failure caught in the try block into an ApiError
with a numeric status — the HTTP status for a non-ok response with truthy
status, and zero with the network-error message for a fetch rejection, a
non-ok response with status zero, or a post-body serialization failure —
with one exception: an ok response whose body fails to parse as JSON
propagates the raw parse exception to the caller, because response.json() is
returned without await from inside the try block. -/
theorem c10_apiClient_error_contract :
    (∀ s j, Api.apiClientGet (.response true s (.ok j)) = .ok j) ∧
    (∀ msg, Api.apiClientGet (.netError msg) =
      .error (.api ⟨Api.networkErrorMessage, 0, some msg⟩)) ∧
    (∀ s body, s ≠ 0 →
      Api.apiClientGet (.response false s body) =
        .error (.api ⟨Api.errorMessage (Api.errorDataOf body).detail s, s,
          (Api.errorDataOf body).detail⟩)) ∧
    (∀ body, Api.apiClientGet (.response false 0 body) =
      .error (.api ⟨Api.networkErrorMessage, 0,
        some (Api.errorMessage (Api.errorDataOf body).detail 0)⟩)) ∧
    (∀ s msg, Api.apiClientGet (.response true s (.error msg)) =
      .error (.raw msg)) ∧
    (∀ msg oc, Api.apiClientPost (some msg) oc =
      .error (.api ⟨Api.networkErrorMessage, 0, some msg⟩)) ∧
    (∀ oc, Api.apiClientPost none oc = Api.apiClientGet oc) := by
  refine ⟨fun s j => rfl, fun msg => rfl, ?_, ?_, fun s msg => rfl,
    fun msg oc => rfl, fun oc => rfl⟩
  · intro s body hs
    simp only [Api.apiClientGet]
    rw [if_pos hs]
  · intro body
    simp only [Api.apiClientGet]
    rw [if_neg (by exact fun h => h rfl)]

/-- Witness for the amended claim C10 at a concrete input: a 404 response
whose error body carries no detail throws the ApiError with the HTTP 404
message and status 404. -/
theorem c10_apiClient_error_contract_witness :
    Api.apiClientGet (.response false 404 (.error "nf")) =
      .error (.api ⟨Api.errorMessage (Api.errorDataOf (.error "nf")).detail 404, 404,
        (Api.errorDataOf (Except.error "nf")).detail⟩) :=
  c10_apiClient_error_contract.2.2.1 404 (.error "nf") (by decide)

end UpsetIQ
